import Mathlib

/-!
Shallow embedding of `src/wayk_proto/src/message/now_messages/surface.rs`
(wayk-now-rs): the `NowSurfaceMsg` envelope, its six variant messages,
the surface definition / mapping records and the primitive codec they
use.  Bytes are modelled as `Nat` values (reduced `% 256` where the code
writes a byte), buffers as `List Nat`, and the `std::io::Cursor` as a
position into such a list.  Fallible operations return `Except`.
-/

deriving instance DecidableEq for Except

namespace WaykSurface

/-- A `std::io::Cursor<&[u8]>`: the underlying buffer plus the read
position.  Decoders thread it explicitly; on failure the returned cursor
keeps whatever position the reads reached, as the mutable Rust cursor
does. -/
structure Cursor where
  data : List Nat
  pos : Nat
deriving DecidableEq

/-- Modelled from the spec: the error taxonomy of `crate::error` (not
under src/) — `DecodingError(entity)`, `EncodingError(entity)` and an
`InvalidDiscriminant` carrying the offending value. -/
inductive ProtoErrorKind where
  | Decoding (entity : String)
  | Encoding (entity : String)
  | InvalidDiscriminant (entity : String) (value : Nat)
deriving DecidableEq

/-- Modelled from the spec: one layer of error context — the kind
(carrying the entity name) plus an optional human description. -/
structure ErrorLayer where
  kind : ProtoErrorKind
  desc : Option String
deriving DecidableEq

/-- Modelled from the spec: a `ProtoError` is the ordered chain of
context layers, outermost first, innermost cause last — each forwarding
layer attaches itself without discarding the original cause. -/
abbrev ProtoError := List ErrorLayer

/-- Modelled from the spec: `ProtoErrorResultExt::chain` — on failure,
push a fresh context layer with the given kind on top of the chain. -/
def chainE {α : Type} (r : Except ProtoError α) (k : ProtoErrorKind) : Except ProtoError α :=
  match r with
  | .error e => .error (⟨k, none⟩ :: e)
  | .ok a => .ok a

/-- Modelled from the spec: `ProtoErrorResultExt::or_desc` — on failure,
set the outermost layer's description when it has none. -/
def orDescE {α : Type} (r : Except ProtoError α) (d : String) : Except ProtoError α :=
  match r with
  | .error (l :: rest) =>
    match l.desc with
    | none => .error ({ l with desc := some d } :: rest)
    | some _ => .error (l :: rest)
  | other => other

/-- Modelled from the spec: lifting an `Option` into a `Result` so that
`chain`/`or_desc` can attach the context layer (the `None` case carries
no inner cause of its own). -/
def optToExcept {α : Type} (o : Option α) : Except ProtoError α :=
  match o with
  | some a => .ok a
  | none => .error []

/-- `.chain(k).or_desc(d)` applied to a decode result that also returns
the cursor: push `⟨k, some d⟩` on the error chain, keep the cursor. -/
def resChainDesc {α : Type} (r : Except ProtoError α × Cursor) (k : ProtoErrorKind)
    (d : String) : Except ProtoError α × Cursor :=
  (orDescE (chainE r.1 k) d, r.2)

/-- `Result::map` on a decode result: transform the value, keep errors
and the cursor. -/
def mapRes {α β : Type} (f : α → β) (r : Except ProtoError α × Cursor) :
    Except ProtoError β × Cursor :=
  (r.1.map f, r.2)

/-- Sequencing of cursor-threading decoders (the `?` operator): on
failure stop, returning the cursor as the failing read left it. -/
def dthen {α β : Type} (r : Except ProtoError α × Cursor)
    (f : α → Cursor → Except ProtoError β × Cursor) : Except ProtoError β × Cursor :=
  match r with
  | (.ok a, c) => f a c
  | (.error e, c) => (.error e, c)

/-- `cursor.read_u8()`: one byte, advancing the position; running out of
bytes is a decoding failure (modelled from the spec, the io conversion
living outside src/). -/
def readU8 (c : Cursor) : Except ProtoError Nat × Cursor :=
  match c.data.get? c.pos with
  | some b => (.ok b, ⟨c.data, c.pos + 1⟩)
  | none => (.error [⟨.Decoding "io", none⟩], c)

/-- A 16-bit read, least-significant byte first.  Modelled from the
spec's primitive codec (the derive implementation is not under src/);
the byte order is the one fixed by the in-repo test vector
`SURFACE_LIST_REQ_MSG`, which encodes 1024 as `0x00, 0x04`. -/
def readU16 (c : Cursor) : Except ProtoError Nat × Cursor :=
  dthen (readU8 c) fun lo c1 =>
  dthen (readU8 c1) fun hi c2 =>
  (.ok (lo + 256 * hi), c2)

/-- Encoding of a `u8` field: one byte. -/
def encU8 (n : Nat) : List Nat := [n % 256]

/-- Encoding of a `u16` field: two bytes, least-significant first (the
byte order fixed by the in-repo test vector `SURFACE_LIST_REQ_MSG`). -/
def encU16 (n : Nat) : List Nat := [n % 256, n / 256 % 256]

/-- Big-endian (network order, most significant byte first) layout of a
16-bit value, written out from the spec's words for comparison with the
codec's actual byte order. -/
def bigEndianU16 (n : Nat) : List Nat := [n / 256 % 256, n % 256]

/-- `SurfaceMessageType`, `#[repr(u8)]`, codes 0x01..0x06. -/
inductive SurfaceMessageType where
  | ListReq
  | ListRsp
  | MapReq
  | MapRsp
  | SelectReq
  | SelectRsp
deriving DecidableEq

/-- The canonical code of each `SurfaceMessageType` variant. -/
def SurfaceMessageType.toCode : SurfaceMessageType → Nat
  | .ListReq => 0x01
  | .ListRsp => 0x02
  | .MapReq => 0x03
  | .MapRsp => 0x04
  | .SelectReq => 0x05
  | .SelectRsp => 0x06

/-- `num::FromPrimitive::from_u8` for `SurfaceMessageType`: only the six
declared codes map back. -/
def SurfaceMessageType.fromCode : Nat → Option SurfaceMessageType
  | 0x01 => some .ListReq
  | 0x02 => some .ListRsp
  | 0x03 => some .MapReq
  | 0x04 => some .MapRsp
  | 0x05 => some .SelectReq
  | 0x06 => some .SelectRsp
  | _ => none

/-- Derived `Encode` for the `u8` enum: its code as one byte. -/
def SurfaceMessageType.encodeBytes (t : SurfaceMessageType) : List Nat := encU8 t.toCode

/-- Derived `Decode` for the `u8` enum; modelled from the spec: an
out-of-table code fails with `InvalidDiscriminant` naming the value. -/
def SurfaceMessageType.decodeFrom (c : Cursor) : Except ProtoError SurfaceMessageType × Cursor :=
  dthen (readU8 c) fun b c1 =>
  match SurfaceMessageType.fromCode b with
  | some t => (.ok t, c1)
  | none => (.error [⟨.InvalidDiscriminant "SurfaceMessageType" b, none⟩], c1)

/-- `SurfaceOrientation`, `#[repr(u16)]`, non-contiguous rotation codes. -/
inductive SurfaceOrientation where
  | Landscape
  | Portrait
  | LandscapeFlipped
  | PortraitFlipped
deriving DecidableEq

/-- The rotation code of each `SurfaceOrientation` variant. -/
def SurfaceOrientation.toCode : SurfaceOrientation → Nat
  | .Landscape => 0
  | .Portrait => 90
  | .LandscapeFlipped => 180
  | .PortraitFlipped => 270

/-- `num::FromPrimitive::from_u16` for `SurfaceOrientation`. -/
def SurfaceOrientation.fromCode : Nat → Option SurfaceOrientation
  | 0 => some .Landscape
  | 90 => some .Portrait
  | 180 => some .LandscapeFlipped
  | 270 => some .PortraitFlipped
  | _ => none

/-- Derived `Encode` for the `u16` enum: its code as two bytes. -/
def SurfaceOrientation.encodeBytes (o : SurfaceOrientation) : List Nat := encU16 o.toCode

/-- Derived `Decode` for the `u16` enum; modelled from the spec: an
out-of-table code fails with `InvalidDiscriminant` naming the value. -/
def SurfaceOrientation.decodeFrom (c : Cursor) : Except ProtoError SurfaceOrientation × Cursor :=
  dthen (readU16 c) fun v c1 =>
  match SurfaceOrientation.fromCode v with
  | some o => (.ok o, c1)
  | none => (.error [⟨.InvalidDiscriminant "SurfaceOrientation" v, none⟩], c1)

/-- `__flags_struct! SurfaceResponseFlags: u8` — a wrapper over the raw
`u8` value with named bit masks (macro expansion modelled from the
spec's bit-flag component). -/
structure SurfaceResponseFlags where
  value : Nat
deriving DecidableEq

def SurfaceResponseFlags.FAILURE : Nat := 0x80

/-- Flags encode as their raw byte; unknown bits pass through. -/
def SurfaceResponseFlags.encodeBytes (f : SurfaceResponseFlags) : List Nat := encU8 f.value

/-- Flags decode as the raw byte; no masking or rejection. -/
def SurfaceResponseFlags.decodeFrom (c : Cursor) : Except ProtoError SurfaceResponseFlags × Cursor :=
  dthen (readU8 c) fun v c1 => (.ok ⟨v⟩, c1)

/-- `__flags_struct! SurfacePropertiesFlags: u16` — a wrapper over the
raw `u16` value with named bit masks. -/
structure SurfacePropertiesFlags where
  value : Nat
deriving DecidableEq

def SurfacePropertiesFlags.PRIMARY : Nat := 0x0001

def SurfacePropertiesFlags.MIRRORED : Nat := 0x0002

def SurfacePropertiesFlags.DISABLED : Nat := 0x0004

def SurfacePropertiesFlags.SELECTED : Nat := 0x0008

/-- `impl Default for SurfacePropertiesFlags`: `SELECTED | PRIMARY`. -/
def SurfacePropertiesFlags.default : SurfacePropertiesFlags :=
  ⟨SurfacePropertiesFlags.SELECTED ||| SurfacePropertiesFlags.PRIMARY⟩

/-- Flags encode as their raw `u16`; unknown bits pass through. -/
def SurfacePropertiesFlags.encodeBytes (f : SurfacePropertiesFlags) : List Nat := encU16 f.value

/-- Flags decode as the raw `u16`; no masking or rejection. -/
def SurfacePropertiesFlags.decodeFrom (c : Cursor) : Except ProtoError SurfacePropertiesFlags × Cursor :=
  dthen (readU16 c) fun v c1 => (.ok ⟨v⟩, c1)

/-- Modelled from the spec: `crate::message::EdgeRect` (not under src/)
— four 16-bit edge coordinates, a pure data carrier. -/
structure EdgeRect where
  left : Nat
  top : Nat
  right : Nat
  bottom : Nat
deriving DecidableEq

/-- `EdgeRect::default()`: all edges zero. -/
def EdgeRect.default : EdgeRect := ⟨0, 0, 0, 0⟩

/-- Derived `Encode` for `EdgeRect`: the four coordinates in declaration
order. -/
def EdgeRect.encodeBytes (r : EdgeRect) : List Nat :=
  encU16 r.left ++ encU16 r.top ++ encU16 r.right ++ encU16 r.bottom

/-- Derived `Decode` for `EdgeRect`: the four coordinates in declaration
order. -/
def EdgeRect.decodeFrom (c : Cursor) : Except ProtoError EdgeRect × Cursor :=
  dthen (readU16 c) fun l c1 =>
  dthen (readU16 c1) fun t c2 =>
  dthen (readU16 c2) fun r c3 =>
  dthen (readU16 c3) fun b c4 =>
  (.ok ⟨l, t, r, b⟩, c4)

/-- Modelled from the spec: `crate::container::Vec8` (not under src/) —
a count-prefixed repeated-element container, 8-bit count. -/
structure Vec8 (α : Type) where
  val : List α
deriving DecidableEq

/-- Modelled from the spec: `Vec8` encoding — one count byte equal to
the element count followed by the concatenated element encodings; a
sequence longer than 255 fails with an `EncodingError` instead of
wrapping or truncating the count byte. -/
def vec8Encode {α : Type} (enc : α → List Nat) (l : List α) : Except ProtoError (List Nat) :=
  if l.length ≤ 255 then .ok (l.length :: (l.map enc).flatten)
  else .error [⟨.Encoding "Vec8", none⟩]

/-- Decode `n` elements in sequence, stopping at the first failure. -/
def vec8DecodeElems {α : Type} (dec : Cursor → Except ProtoError α × Cursor) :
    Nat → Cursor → Except ProtoError (List α) × Cursor
  | 0, c => (.ok [], c)
  | n + 1, c =>
    dthen (dec c) fun a c1 =>
    match vec8DecodeElems dec n c1 with
    | (.ok l, c2) => (.ok (a :: l), c2)
    | (.error e, c2) => (.error e, c2)

/-- Modelled from the spec: `Vec8` decoding — read the count byte, then
exactly that many elements. -/
def vec8Decode {α : Type} (dec : Cursor → Except ProtoError α × Cursor) (c : Cursor) :
    Except ProtoError (Vec8 α) × Cursor :=
  dthen (readU8 c) fun n c1 => mapRes Vec8.mk (vec8DecodeElems dec n c1)

/-- `NOW_SURFACE_DEF`: the wire fields `size`, `flags`, `surface_id`,
`orientation`, `rect` followed by the unused fields carrying both the
`#[decode_ignore]` and `#[encode_ignore]` attributes in the source. -/
structure NowSurfaceDef where
  size : Nat
  flags : SurfacePropertiesFlags
  surface_id : Nat
  orientation : SurfaceOrientation
  rect : EdgeRect
  dpi_x : Nat
  dpi_y : Nat
  pct_scale_x : Nat
  pct_scale_y : Nat
  native_rect : EdgeRect
deriving DecidableEq

def NowSurfaceDef.REQUIRED_SIZE : Nat := 16

/-- `NowSurfaceDef::new`. -/
def NowSurfaceDef.new (surface_id : Nat) (rect : EdgeRect) : NowSurfaceDef :=
  { size := NowSurfaceDef.REQUIRED_SIZE
    flags := SurfacePropertiesFlags.default
    surface_id
    orientation := .Landscape
    rect
    dpi_x := 0
    dpi_y := 0
    pct_scale_x := 0
    pct_scale_y := 0
    native_rect := EdgeRect.default }

/-- Derived `Encode` for `NowSurfaceDef`: the non-ignored fields in
declaration order (the five `#[encode_ignore]` fields are skipped). -/
def NowSurfaceDef.encodeBytes (d : NowSurfaceDef) : List Nat :=
  encU16 d.size ++ d.flags.encodeBytes ++ encU16 d.surface_id ++
    d.orientation.encodeBytes ++ d.rect.encodeBytes

/-- Derived `Decode` for `NowSurfaceDef`: the non-ignored fields in
declaration order; the `#[decode_ignore]` fields are filled with their
defaults without reading any bytes. -/
def NowSurfaceDef.decodeFrom (c : Cursor) : Except ProtoError NowSurfaceDef × Cursor :=
  dthen (readU16 c) fun size c1 =>
  dthen (SurfacePropertiesFlags.decodeFrom c1) fun flags c2 =>
  dthen (readU16 c2) fun surface_id c3 =>
  dthen (SurfaceOrientation.decodeFrom c3) fun orientation c4 =>
  dthen (EdgeRect.decodeFrom c4) fun rect c5 =>
  (.ok ⟨size, flags, surface_id, orientation, rect, 0, 0, 0, 0, EdgeRect.default⟩, c5)

/-- `NOW_SURFACE_MAP`. -/
structure NowSurfaceMap where
  size : Nat
  flags : Nat
  surface_id : Nat
  output_id : Nat
  output_rect : EdgeRect
deriving DecidableEq

/-- `mem::size_of::<NowSurfaceMap>()`: four `u16` fields plus an
8-byte `EdgeRect`. -/
def NowSurfaceMap.REQUIRED_SIZE : Nat := 16

/-- `NowSurfaceMap::new`. -/
def NowSurfaceMap.new (surface_id : Nat) (output_id : Nat) (output_rect : EdgeRect) :
    NowSurfaceMap :=
  { size := NowSurfaceMap.REQUIRED_SIZE
    flags := 0
    surface_id
    output_id
    output_rect }

/-- Derived `Encode` for `NowSurfaceMap`: all fields in declaration
order. -/
def NowSurfaceMap.encodeBytes (m : NowSurfaceMap) : List Nat :=
  encU16 m.size ++ encU16 m.flags ++ encU16 m.surface_id ++ encU16 m.output_id ++
    m.output_rect.encodeBytes

/-- Derived `Decode` for `NowSurfaceMap`. -/
def NowSurfaceMap.decodeFrom (c : Cursor) : Except ProtoError NowSurfaceMap × Cursor :=
  dthen (readU16 c) fun size c1 =>
  dthen (readU16 c1) fun flags c2 =>
  dthen (readU16 c2) fun surface_id c3 =>
  dthen (readU16 c3) fun output_id c4 =>
  dthen (EdgeRect.decodeFrom c4) fun output_rect c5 =>
  (.ok ⟨size, flags, surface_id, output_id, output_rect⟩, c5)

/-- `NowSurfaceListReqMsg`. -/
structure NowSurfaceListReqMsg where
  subtype : SurfaceMessageType
  flags : Nat
  sequence_id : Nat
  desktop_width : Nat
  desktop_height : Nat
  surfaces : Vec8 NowSurfaceDef
deriving DecidableEq

/-- `NowSurfaceListReqMsg::new`. -/
def NowSurfaceListReqMsg.new_with_surfaces (sequence_id : Nat) (desktop_width : Nat)
    (desktop_height : Nat) (surfaces : List NowSurfaceDef) : NowSurfaceListReqMsg :=
  { subtype := SurfaceMessageType.ListReq
    flags := 0
    sequence_id
    desktop_width
    desktop_height
    surfaces := ⟨surfaces⟩ }

def NowSurfaceListReqMsg.new (sequence_id : Nat) (desktop_width : Nat)
    (desktop_height : Nat) : NowSurfaceListReqMsg :=
  NowSurfaceListReqMsg.new_with_surfaces sequence_id desktop_width desktop_height []

/-- Derived `Encode` for `NowSurfaceListReqMsg`: fields in declaration
order; the only fallible part is the `Vec8` count guard. -/
def NowSurfaceListReqMsg.encode (m : NowSurfaceListReqMsg) : Except ProtoError (List Nat) :=
  match vec8Encode NowSurfaceDef.encodeBytes m.surfaces.val with
  | .ok tail =>
    .ok (m.subtype.encodeBytes ++ encU8 m.flags ++ encU16 m.sequence_id ++
      encU16 m.desktop_width ++ encU16 m.desktop_height ++ tail)
  | .error e => .error e

/-- Derived `Decode` for `NowSurfaceListReqMsg`: fields in declaration
order, the subtype byte read as the first field of its own header. -/
def NowSurfaceListReqMsg.decodeFrom (c : Cursor) : Except ProtoError NowSurfaceListReqMsg × Cursor :=
  dthen (SurfaceMessageType.decodeFrom c) fun subtype c1 =>
  dthen (readU8 c1) fun flags c2 =>
  dthen (readU16 c2) fun sequence_id c3 =>
  dthen (readU16 c3) fun desktop_width c4 =>
  dthen (readU16 c4) fun desktop_height c5 =>
  dthen (vec8Decode NowSurfaceDef.decodeFrom c5) fun surfaces c6 =>
  (.ok ⟨subtype, flags, sequence_id, desktop_width, desktop_height, surfaces⟩, c6)

/-- `NowSurfaceListRspMsg`. -/
structure NowSurfaceListRspMsg where
  subtype : SurfaceMessageType
  flags : SurfaceResponseFlags
  sequence_id : Nat
deriving DecidableEq

/-- `NowSurfaceListRspMsg::new`. -/
def NowSurfaceListRspMsg.new (flags : SurfaceResponseFlags) (sequence_id : Nat) :
    NowSurfaceListRspMsg :=
  { subtype := SurfaceMessageType.ListRsp, flags, sequence_id }

/-- Derived `Encode` for `NowSurfaceListRspMsg`. -/
def NowSurfaceListRspMsg.encode (m : NowSurfaceListRspMsg) : Except ProtoError (List Nat) :=
  .ok (m.subtype.encodeBytes ++ m.flags.encodeBytes ++ encU16 m.sequence_id)

/-- Derived `Decode` for `NowSurfaceListRspMsg`. -/
def NowSurfaceListRspMsg.decodeFrom (c : Cursor) : Except ProtoError NowSurfaceListRspMsg × Cursor :=
  dthen (SurfaceMessageType.decodeFrom c) fun subtype c1 =>
  dthen (SurfaceResponseFlags.decodeFrom c1) fun flags c2 =>
  dthen (readU16 c2) fun sequence_id c3 =>
  (.ok ⟨subtype, flags, sequence_id⟩, c3)

/-- `NowSurfaceMapReqMsg`. -/
structure NowSurfaceMapReqMsg where
  subtype : SurfaceMessageType
  flags : Nat
  sequence_id : Nat
  desktop_width : Nat
  desktop_height : Nat
  maps : Vec8 NowSurfaceMap
deriving DecidableEq

/-- `NowSurfaceMapReqMsg::new_with_mappings`.  The source seeds
`subtype: SurfaceMessageType::ListReq` (surface.rs line 347) even though
`NowSurfaceMapReqMsg::SUBTYPE` is declared as `MapReq`; the field is
embedded exactly as the source writes it. -/
def NowSurfaceMapReqMsg.new_with_mappings (sequence_id : Nat) (desktop_width : Nat)
    (desktop_height : Nat) (maps : List NowSurfaceMap) : NowSurfaceMapReqMsg :=
  { subtype := SurfaceMessageType.ListReq
    flags := 0
    sequence_id
    desktop_width
    desktop_height
    maps := ⟨maps⟩ }

def NowSurfaceMapReqMsg.new (sequence_id : Nat) (desktop_width : Nat)
    (desktop_height : Nat) : NowSurfaceMapReqMsg :=
  NowSurfaceMapReqMsg.new_with_mappings sequence_id desktop_width desktop_height []

/-- The `SUBTYPE` constant declared for `NowSurfaceMapReqMsg`. -/
def NowSurfaceMapReqMsg.SUBTYPE : SurfaceMessageType := SurfaceMessageType.MapReq

/-- Derived `Encode` for `NowSurfaceMapReqMsg`. -/
def NowSurfaceMapReqMsg.encode (m : NowSurfaceMapReqMsg) : Except ProtoError (List Nat) :=
  match vec8Encode NowSurfaceMap.encodeBytes m.maps.val with
  | .ok tail =>
    .ok (m.subtype.encodeBytes ++ encU8 m.flags ++ encU16 m.sequence_id ++
      encU16 m.desktop_width ++ encU16 m.desktop_height ++ tail)
  | .error e => .error e

/-- Derived `Decode` for `NowSurfaceMapReqMsg`. -/
def NowSurfaceMapReqMsg.decodeFrom (c : Cursor) : Except ProtoError NowSurfaceMapReqMsg × Cursor :=
  dthen (SurfaceMessageType.decodeFrom c) fun subtype c1 =>
  dthen (readU8 c1) fun flags c2 =>
  dthen (readU16 c2) fun sequence_id c3 =>
  dthen (readU16 c3) fun desktop_width c4 =>
  dthen (readU16 c4) fun desktop_height c5 =>
  dthen (vec8Decode NowSurfaceMap.decodeFrom c5) fun maps c6 =>
  (.ok ⟨subtype, flags, sequence_id, desktop_width, desktop_height, maps⟩, c6)

/-- `NowSurfaceMapRspMsg`. -/
structure NowSurfaceMapRspMsg where
  subtype : SurfaceMessageType
  flags : SurfaceResponseFlags
  sequence_id : Nat
deriving DecidableEq

/-- `NowSurfaceMapRspMsg::new`. -/
def NowSurfaceMapRspMsg.new (flags : SurfaceResponseFlags) (sequence_id : Nat) :
    NowSurfaceMapRspMsg :=
  { subtype := SurfaceMessageType.MapRsp, flags, sequence_id }

/-- Derived `Encode` for `NowSurfaceMapRspMsg`. -/
def NowSurfaceMapRspMsg.encode (m : NowSurfaceMapRspMsg) : Except ProtoError (List Nat) :=
  .ok (m.subtype.encodeBytes ++ m.flags.encodeBytes ++ encU16 m.sequence_id)

/-- Derived `Decode` for `NowSurfaceMapRspMsg`. -/
def NowSurfaceMapRspMsg.decodeFrom (c : Cursor) : Except ProtoError NowSurfaceMapRspMsg × Cursor :=
  dthen (SurfaceMessageType.decodeFrom c) fun subtype c1 =>
  dthen (SurfaceResponseFlags.decodeFrom c1) fun flags c2 =>
  dthen (readU16 c2) fun sequence_id c3 =>
  (.ok ⟨subtype, flags, sequence_id⟩, c3)

/-- `NowSurfaceSelectReqMsg`. -/
structure NowSurfaceSelectReqMsg where
  subtype : SurfaceMessageType
  flags : Nat
  sequence_id : Nat
  reserved : Nat
  surface_id : Nat
deriving DecidableEq

/-- `NowSurfaceSelectReqMsg::new`. -/
def NowSurfaceSelectReqMsg.new (flags : Nat) (sequence_id : Nat) (surface_id : Nat) :
    NowSurfaceSelectReqMsg :=
  { subtype := SurfaceMessageType.SelectReq
    flags
    sequence_id
    reserved := 0
    surface_id }

/-- Derived `Encode` for `NowSurfaceSelectReqMsg`. -/
def NowSurfaceSelectReqMsg.encode (m : NowSurfaceSelectReqMsg) : Except ProtoError (List Nat) :=
  .ok (m.subtype.encodeBytes ++ encU8 m.flags ++ encU16 m.sequence_id ++
    encU16 m.reserved ++ encU16 m.surface_id)

/-- Derived `Decode` for `NowSurfaceSelectReqMsg`. -/
def NowSurfaceSelectReqMsg.decodeFrom (c : Cursor) :
    Except ProtoError NowSurfaceSelectReqMsg × Cursor :=
  dthen (SurfaceMessageType.decodeFrom c) fun subtype c1 =>
  dthen (readU8 c1) fun flags c2 =>
  dthen (readU16 c2) fun sequence_id c3 =>
  dthen (readU16 c3) fun reserved c4 =>
  dthen (readU16 c4) fun surface_id c5 =>
  (.ok ⟨subtype, flags, sequence_id, reserved, surface_id⟩, c5)

/-- `NowSurfaceSelectRspMsg`. -/
structure NowSurfaceSelectRspMsg where
  subtype : SurfaceMessageType
  flags : SurfaceResponseFlags
  sequence_id : Nat
deriving DecidableEq

/-- `NowSurfaceSelectRspMsg::new`. -/
def NowSurfaceSelectRspMsg.new (flags : SurfaceResponseFlags) (sequence_id : Nat) :
    NowSurfaceSelectRspMsg :=
  { subtype := SurfaceMessageType.SelectRsp, flags, sequence_id }

/-- Derived `Encode` for `NowSurfaceSelectRspMsg`. -/
def NowSurfaceSelectRspMsg.encode (m : NowSurfaceSelectRspMsg) : Except ProtoError (List Nat) :=
  .ok (m.subtype.encodeBytes ++ m.flags.encodeBytes ++ encU16 m.sequence_id)

/-- Derived `Decode` for `NowSurfaceSelectRspMsg`. -/
def NowSurfaceSelectRspMsg.decodeFrom (c : Cursor) :
    Except ProtoError NowSurfaceSelectRspMsg × Cursor :=
  dthen (SurfaceMessageType.decodeFrom c) fun subtype c1 =>
  dthen (SurfaceResponseFlags.decodeFrom c1) fun flags c2 =>
  dthen (readU16 c2) fun sequence_id c3 =>
  (.ok ⟨subtype, flags, sequence_id⟩, c3)

/-- `NOW_SURFACE_MSG`: the envelope sum type. -/
inductive NowSurfaceMsg where
  | ListReq (msg : NowSurfaceListReqMsg)
  | ListRsp (msg : NowSurfaceListRspMsg)
  | MapReq (msg : NowSurfaceMapReqMsg)
  | MapRsp (msg : NowSurfaceMapRspMsg)
  | SelectReq (msg : NowSurfaceSelectReqMsg)
  | SelectRsp (msg : NowSurfaceSelectRspMsg)
deriving DecidableEq

/-- `impl Encode for NowSurfaceMsg`: delegate to the active variant,
chaining `Encoding("NowSurfaceMsg")` with a per-variant description on
failure; no extra framing byte is added. -/
def NowSurfaceMsg.encode : NowSurfaceMsg → Except ProtoError (List Nat)
  | .ListReq m =>
    orDescE (chainE m.encode (.Encoding "NowSurfaceMsg")) "couldn't encode list request message"
  | .ListRsp m =>
    orDescE (chainE m.encode (.Encoding "NowSurfaceMsg")) "couldn't encode list response message"
  | .MapReq m =>
    orDescE (chainE m.encode (.Encoding "NowSurfaceMsg")) "couldn't encode map request message"
  | .MapRsp m =>
    orDescE (chainE m.encode (.Encoding "NowSurfaceMsg")) "couldn't encode map response message"
  | .SelectReq m =>
    orDescE (chainE m.encode (.Encoding "NowSurfaceMsg")) "couldn't encode select request message"
  | .SelectRsp m =>
    orDescE (chainE m.encode (.Encoding "NowSurfaceMsg")) "couldn't encode select response message"

/-- `impl Decode for NowSurfaceMsg::decode_from`: read the discriminant
byte, map it through `SurfaceMessageType` (failure chains
`Decoding("NowSurfaceMsg")` described "invalid subtype"), seek one byte
back, then dispatch to the matching variant decoder, chaining a
per-variant description on failure. -/
def NowSurfaceMsg.decodeFrom (c : Cursor) : Except ProtoError NowSurfaceMsg × Cursor :=
  match readU8 c with
  | (.error e, c1) => (.error e, c1)
  | (.ok b, c1) =>
    match orDescE (chainE (optToExcept (SurfaceMessageType.fromCode b))
        (.Decoding "NowSurfaceMsg")) "invalid subtype" with
    | .error e => (.error e, c1)
    | .ok subtype =>
      let c0 : Cursor := ⟨c1.data, c1.pos - 1⟩
      match subtype with
      | .ListReq =>
        resChainDesc (mapRes NowSurfaceMsg.ListReq (NowSurfaceListReqMsg.decodeFrom c0))
          (.Decoding "NowSurfaceMsg") "invalid list request message"
      | .ListRsp =>
        resChainDesc (mapRes NowSurfaceMsg.ListRsp (NowSurfaceListRspMsg.decodeFrom c0))
          (.Decoding "NowSurfaceMsg") "invalid list response message"
      | .MapReq =>
        resChainDesc (mapRes NowSurfaceMsg.MapReq (NowSurfaceMapReqMsg.decodeFrom c0))
          (.Decoding "NowSurfaceMsg") "invalid map request message"
      | .MapRsp =>
        resChainDesc (mapRes NowSurfaceMsg.MapRsp (NowSurfaceMapRspMsg.decodeFrom c0))
          (.Decoding "NowSurfaceMsg") "invalid map response message"
      | .SelectReq =>
        resChainDesc (mapRes NowSurfaceMsg.SelectReq (NowSurfaceSelectReqMsg.decodeFrom c0))
          (.Decoding "NowSurfaceMsg") "invalid select request message"
      | .SelectRsp =>
        resChainDesc (mapRes NowSurfaceMsg.SelectRsp (NowSurfaceSelectRspMsg.decodeFrom c0))
          (.Decoding "NowSurfaceMsg") "invalid select response message"

/-- `NowSurfaceMsg::decode(&bytes)`: decode from a fresh cursor over the
buffer. -/
def NowSurfaceMsg.decode (bytes : List Nat) : Except ProtoError NowSurfaceMsg :=
  (NowSurfaceMsg.decodeFrom ⟨bytes, 0⟩).1

/-- The decoder each `SurfaceMessageType` dispatches to, lifted into the
envelope's sum type (the `.map(Self::Variant)` of each branch, before
the error-context chaining). -/
def variantDecode (t : SurfaceMessageType) (c : Cursor) : Except ProtoError NowSurfaceMsg × Cursor :=
  match t with
  | .ListReq => mapRes NowSurfaceMsg.ListReq (NowSurfaceListReqMsg.decodeFrom c)
  | .ListRsp => mapRes NowSurfaceMsg.ListRsp (NowSurfaceListRspMsg.decodeFrom c)
  | .MapReq => mapRes NowSurfaceMsg.MapReq (NowSurfaceMapReqMsg.decodeFrom c)
  | .MapRsp => mapRes NowSurfaceMsg.MapRsp (NowSurfaceMapRspMsg.decodeFrom c)
  | .SelectReq => mapRes NowSurfaceMsg.SelectReq (NowSurfaceSelectReqMsg.decodeFrom c)
  | .SelectRsp => mapRes NowSurfaceMsg.SelectRsp (NowSurfaceSelectRspMsg.decodeFrom c)

/-- The per-variant failure description attached by the envelope's
decode dispatch. -/
def decodeDesc : SurfaceMessageType → String
  | .ListReq => "invalid list request message"
  | .ListRsp => "invalid list response message"
  | .MapReq => "invalid map request message"
  | .MapRsp => "invalid map response message"
  | .SelectReq => "invalid select request message"
  | .SelectRsp => "invalid select response message"

/-- The active variant's own encode, before the envelope's error-context
chaining. -/
def variantEncodeE : NowSurfaceMsg → Except ProtoError (List Nat)
  | .ListReq m => m.encode
  | .ListRsp m => m.encode
  | .MapReq m => m.encode
  | .MapRsp m => m.encode
  | .SelectReq m => m.encode
  | .SelectRsp m => m.encode

/-- The per-variant failure description attached by the envelope's
encode delegation. -/
def encodeDesc : NowSurfaceMsg → String
  | .ListReq _ => "couldn't encode list request message"
  | .ListRsp _ => "couldn't encode list response message"
  | .MapReq _ => "couldn't encode map request message"
  | .MapRsp _ => "couldn't encode map response message"
  | .SelectReq _ => "couldn't encode select request message"
  | .SelectRsp _ => "couldn't encode select response message"

/-- The 25-byte test vector `SURFACE_LIST_REQ_MSG` from the source's
test module. -/
def SURFACE_LIST_REQ_MSG : List Nat :=
  [0x01,
   0x00,
   0x00, 0x00,
   0x00, 0x04,
   0x00, 0x03,
   0x01,
   0x10, 0x00,
   0x09, 0x00,
   0x00, 0x00,
   0x00, 0x00,
   0x00, 0x00, 0x00, 0x00, 0x00, 0x04, 0x00, 0x03]

/-- `true` exactly on the `InvalidDiscriminant` error kind. -/
def ProtoErrorKind.isInvalidDiscriminant : ProtoErrorKind → Bool
  | .InvalidDiscriminant _ _ => true
  | _ => false

/-- Whether any layer of an error chain is an `InvalidDiscriminant`. -/
def mentionsInvalidDiscriminant (e : ProtoError) : Bool :=
  e.any fun l => l.kind.isInvalidDiscriminant

/-! Helper lemmas about the cursor discipline of the decoders. -/

theorem dthen_ok {α β : Type} (r : Except ProtoError α × Cursor)
    (f : α → Cursor → Except ProtoError β × Cursor) (b : β) (c' : Cursor)
    (h : dthen r f = (.ok b, c')) : ∃ a c1, r = (.ok a, c1) ∧ f a c1 = (.ok b, c') := by
  rcases r with ⟨r1, c1⟩
  cases r1 with
  | error e => simp [dthen] at h
  | ok a => exact ⟨a, c1, rfl, h⟩

theorem readU8_ok (c : Cursor) (n : Nat) (c' : Cursor) (h : readU8 c = (.ok n, c')) :
    c' = ⟨c.data, c.pos + 1⟩ := by
  unfold readU8 at h
  cases hg : c.data.get? c.pos with
  | none => rw [hg] at h; simp at h
  | some b => rw [hg] at h; simp at h; exact h.2.symm

theorem readU16_ok (c : Cursor) (n : Nat) (c' : Cursor) (h : readU16 c = (.ok n, c')) :
    c' = ⟨c.data, c.pos + 2⟩ := by
  unfold readU16 at h
  obtain ⟨lo, c1, h1, h⟩ := dthen_ok _ _ _ _ h
  obtain ⟨hi, c2, h2, h⟩ := dthen_ok _ _ _ _ h
  have e1 := readU8_ok _ _ _ h1
  have e2 := readU8_ok _ _ _ h2
  have hc : c2 = c' := congrArg Prod.snd h
  rw [← hc, e2, e1]

theorem surfacePropertiesFlags_decode_ok (c : Cursor) (f : SurfacePropertiesFlags) (c' : Cursor)
    (h : SurfacePropertiesFlags.decodeFrom c = (.ok f, c')) : c' = ⟨c.data, c.pos + 2⟩ := by
  unfold SurfacePropertiesFlags.decodeFrom at h
  obtain ⟨v, c1, h1, h⟩ := dthen_ok _ _ _ _ h
  have hc : c1 = c' := congrArg Prod.snd h
  rw [← hc]
  exact readU16_ok _ _ _ h1

theorem surfaceOrientation_decode_ok (c : Cursor) (o : SurfaceOrientation) (c' : Cursor)
    (h : SurfaceOrientation.decodeFrom c = (.ok o, c')) : c' = ⟨c.data, c.pos + 2⟩ := by
  unfold SurfaceOrientation.decodeFrom at h
  obtain ⟨v, c1, h1, h⟩ := dthen_ok _ _ _ _ h
  cases hf : SurfaceOrientation.fromCode v with
  | none => rw [hf] at h; simp at h
  | some o2 =>
    rw [hf] at h
    have hc : c1 = c' := congrArg Prod.snd h
    rw [← hc]
    exact readU16_ok _ _ _ h1

theorem edgeRect_decode_ok (c : Cursor) (r : EdgeRect) (c' : Cursor)
    (h : EdgeRect.decodeFrom c = (.ok r, c')) : c' = ⟨c.data, c.pos + 8⟩ := by
  unfold EdgeRect.decodeFrom at h
  obtain ⟨a, c1, h1, h⟩ := dthen_ok _ _ _ _ h
  obtain ⟨b, c2, h2, h⟩ := dthen_ok _ _ _ _ h
  obtain ⟨d, c3, h3, h⟩ := dthen_ok _ _ _ _ h
  obtain ⟨e, c4, h4, h⟩ := dthen_ok _ _ _ _ h
  have hc : c4 = c' := congrArg Prod.snd h
  rw [← hc, readU16_ok _ _ _ h4, readU16_ok _ _ _ h3, readU16_ok _ _ _ h2, readU16_ok _ _ _ h1]

theorem nowSurfaceDef_decode_ok (c : Cursor) (v : NowSurfaceDef) (c' : Cursor)
    (h : NowSurfaceDef.decodeFrom c = (.ok v, c')) :
    c' = ⟨c.data, c.pos + 16⟩ ∧ v.dpi_x = 0 ∧ v.dpi_y = 0 ∧ v.pct_scale_x = 0 ∧
      v.pct_scale_y = 0 ∧ v.native_rect = EdgeRect.default := by
  unfold NowSurfaceDef.decodeFrom at h
  obtain ⟨size, c1, h1, h⟩ := dthen_ok _ _ _ _ h
  obtain ⟨flags, c2, h2, h⟩ := dthen_ok _ _ _ _ h
  obtain ⟨sid, c3, h3, h⟩ := dthen_ok _ _ _ _ h
  obtain ⟨ori, c4, h4, h⟩ := dthen_ok _ _ _ _ h
  obtain ⟨rect, c5, h5, h⟩ := dthen_ok _ _ _ _ h
  have hv : (Except.ok (⟨size, flags, sid, ori, rect, 0, 0, 0, 0, EdgeRect.default⟩ : NowSurfaceDef) :
      Except ProtoError NowSurfaceDef) = .ok v := congrArg Prod.fst h
  injection hv with hv2
  subst hv2
  have hc : c5 = c' := congrArg Prod.snd h
  refine ⟨?_, rfl, rfl, rfl, rfl, rfl⟩
  rw [← hc, edgeRect_decode_ok _ _ _ h5, surfaceOrientation_decode_ok _ _ _ h4,
    readU16_ok _ _ _ h3, surfacePropertiesFlags_decode_ok _ _ _ h2, readU16_ok _ _ _ h1]

theorem fromCode_toCode (t : SurfaceMessageType) :
    SurfaceMessageType.fromCode t.toCode = some t := by
  cases t <;> rfl

theorem decodeFrom_dispatch (c : Cursor) (b : Nat) (t : SurfaceMessageType)
    (hb : c.data.get? c.pos = some b) (hf : SurfaceMessageType.fromCode b = some t) :
    NowSurfaceMsg.decodeFrom c =
      resChainDesc (variantDecode t c) (.Decoding "NowSurfaceMsg") (decodeDesc t) := by
  have hr : readU8 c = (.ok b, ⟨c.data, c.pos + 1⟩) := by unfold readU8; rw [hb]
  unfold NowSurfaceMsg.decodeFrom
  rw [hr]
  simp only [hf, optToExcept, chainE, orDescE]
  cases t <;> rfl

theorem decodeFrom_invalid (c : Cursor) (b : Nat)
    (hb : c.data.get? c.pos = some b) (hf : SurfaceMessageType.fromCode b = none) :
    NowSurfaceMsg.decodeFrom c =
      (.error [⟨.Decoding "NowSurfaceMsg", some "invalid subtype"⟩], ⟨c.data, c.pos + 1⟩) := by
  have hr : readU8 c = (.ok b, ⟨c.data, c.pos + 1⟩) := by unfold readU8; rw [hb]
  unfold NowSurfaceMsg.decodeFrom
  rw [hr]
  simp only [hf, optToExcept, chainE, orDescE]

/-! Claim theorems. -/

/-- C1: the round-trip property fails on the code — a `MapReq` message
built by its public constructor encodes with first byte `0x01` (the
constructor seeds `subtype = ListReq`), so decoding its encoding yields
a `ListReq` variant, not a value equal to the original `MapReq`
field-for-field. -/
theorem c1_mapreq_roundtrip_failure :
    NowSurfaceMsg.encode (.MapReq (NowSurfaceMapReqMsg.new 0 0 0)) =
      .ok [0x01, 0x00, 0x00, 0x00, 0x00, 0x00, 0x00, 0x00, 0x00] ∧
    NowSurfaceMsg.decode [0x01, 0x00, 0x00, 0x00, 0x00, 0x00, 0x00, 0x00, 0x00] =
      .ok (.ListReq (NowSurfaceListReqMsg.new 0 0 0)) ∧
    NowSurfaceMsg.decode [0x01, 0x00, 0x00, 0x00, 0x00, 0x00, 0x00, 0x00, 0x00] ≠
      .ok (.MapReq (NowSurfaceMapReqMsg.new 0 0 0)) := by
  decide

/-- C2: discriminant fidelity fails for `NowSurfaceMapReqMsg` built with
`new_with_mappings` — its embedded discriminant field is `ListReq`
(code `0x01`), not the declared `SUBTYPE` (`MapReq`, code `0x03`), and
the first byte of its encoding is `0x01`. -/
theorem c2_mapreq_discriminant_bug :
    (NowSurfaceMapReqMsg.new_with_mappings 0 0 0 []).subtype = SurfaceMessageType.ListReq ∧
    (NowSurfaceMapReqMsg.new_with_mappings 0 0 0 []).subtype ≠ NowSurfaceMapReqMsg.SUBTYPE ∧
    NowSurfaceMapReqMsg.SUBTYPE.toCode = 0x03 ∧
    NowSurfaceMsg.encode (.MapReq (NowSurfaceMapReqMsg.new_with_mappings 0 0 0 [])) =
      .ok [0x01, 0x00, 0x00, 0x00, 0x00, 0x00, 0x00, 0x00, 0x00] := by
  decide

/-- C3 counterexample: the 16-bit value 1024 encodes to the bytes
`0x00, 0x04` in that order, which is not the network/big-endian byte
layout `0x04, 0x00` — the codec's byte order is not big-endian. -/
theorem c3_not_big_endian :
    encU16 1024 = [0x00, 0x04] ∧ bigEndianU16 1024 = [0x04, 0x00] ∧
    encU16 1024 ≠ bigEndianU16 1024 := by
  decide

/-- C3 (amended): every 16-bit field is serialized least-significant
byte first (little-endian): the first byte is `n % 256`, the second is
`n / 256`, and the value is reconstructed from the first byte as the low
byte; in particular 1024 encodes to `0x00, 0x04`. -/
theorem c3_little_endian (n : Nat) (h : n < 65536) :
    encU16 n = [n % 256, n / 256] ∧ n % 256 + 256 * (n / 256) = n ∧
    encU16 1024 = [0x00, 0x04] := by
  have hd : n / 256 < 256 := Nat.div_lt_of_lt_mul (by omega)
  refine ⟨?_, Nat.mod_add_div n 256, by decide⟩
  unfold encU16
  rw [Nat.mod_eq_of_lt hd]

theorem c3_little_endian_witness :
    1024 < 65536 ∧
    (encU16 1024 = [1024 % 256, 1024 / 256] ∧ 1024 % 256 + 256 * (1024 / 256) = 1024 ∧
      encU16 1024 = [0x00, 0x04]) :=
  ⟨by decide, c3_little_endian 1024 (by decide)⟩

/-- C4 counterexample: on the one-byte buffer `[0x07]` decoding fails,
but with a `Decoding("NowSurfaceMsg")` error described "invalid
subtype" — no layer of the error chain is an `InvalidDiscriminant`, so
the attempted value 0x07 is not named. -/
theorem c4_no_invalid_discriminant_error :
    NowSurfaceMsg.decode [0x07] =
      .error [⟨.Decoding "NowSurfaceMsg", some "invalid subtype"⟩] ∧
    mentionsInvalidDiscriminant [⟨.Decoding "NowSurfaceMsg", some "invalid subtype"⟩] = false := by
  decide

/-- C4 (amended): for every buffer whose next byte is not one of
`{0x01..0x06}`, `NowSurfaceMsg` decoding fails with a
`Decoding("NowSurfaceMsg")` error described "invalid subtype" (not an
`InvalidDiscriminant` naming the attempted value), and no partial
struct is produced. -/
theorem c4_bad_discriminant_fails (c : Cursor) (b : Nat)
    (hb : c.data.get? c.pos = some b) (hf : SurfaceMessageType.fromCode b = none) :
    NowSurfaceMsg.decodeFrom c =
      (.error [⟨.Decoding "NowSurfaceMsg", some "invalid subtype"⟩], ⟨c.data, c.pos + 1⟩) :=
  decodeFrom_invalid c b hb hf

theorem c4_bad_discriminant_fails_witness :
    (Cursor.mk [0x07] 0).data.get? (Cursor.mk [0x07] 0).pos = some 0x07 ∧
    SurfaceMessageType.fromCode 0x07 = none ∧
    NowSurfaceMsg.decodeFrom ⟨[0x07], 0⟩ =
      (.error [⟨.Decoding "NowSurfaceMsg", some "invalid subtype"⟩], ⟨[0x07], 1⟩) :=
  ⟨by decide, by decide, c4_bad_discriminant_fails ⟨[0x07], 0⟩ 0x07 (by decide) (by decide)⟩

/-- C5: decoding the 25-byte test vector succeeds and yields the
`ListReq` variant with `sequence_id = 0`, `desktop_width = 1024`,
`desktop_height = 768` and exactly one surface whose orientation is
`Landscape` and whose rect is `(0, 0, 1024, 768)`; re-encoding the
decoded value reproduces the 25 bytes exactly. -/
theorem c5_concrete_list_req_roundtrip :
    NowSurfaceMsg.decode SURFACE_LIST_REQ_MSG =
      .ok (.ListReq ⟨.ListReq, 0, 0, 1024, 768,
        ⟨[⟨16, ⟨9⟩, 0, .Landscape, ⟨0, 0, 1024, 768⟩, 0, 0, 0, 0, ⟨0, 0, 0, 0⟩⟩]⟩⟩) ∧
    NowSurfaceMsg.encode (.ListReq ⟨.ListReq, 0, 0, 1024, 768,
        ⟨[⟨16, ⟨9⟩, 0, .Landscape, ⟨0, 0, 1024, 768⟩, 0, 0, 0, 0, ⟨0, 0, 0, 0⟩⟩]⟩⟩) =
      .ok SURFACE_LIST_REQ_MSG := by
  decide

/-- C6: encoding a list-request whose surface list holds `N ≤ 255`
elements writes the count byte `N` followed by the concatenated element
encodings; a list of more than 255 elements fails with an
`EncodingError` instead of wrapping or truncating the count byte. -/
theorem c6_vec8_count_fidelity (seq w h : Nat) (l : List NowSurfaceDef) :
    (l.length ≤ 255 →
      NowSurfaceListReqMsg.encode (NowSurfaceListReqMsg.new_with_surfaces seq w h l) =
        .ok ([0x01, 0x00] ++ encU16 seq ++ encU16 w ++ encU16 h ++
          (l.length :: (l.map NowSurfaceDef.encodeBytes).flatten))) ∧
    (255 < l.length →
      NowSurfaceListReqMsg.encode (NowSurfaceListReqMsg.new_with_surfaces seq w h l) =
        .error [⟨.Encoding "Vec8", none⟩]) := by
  constructor
  · intro hle
    simp [NowSurfaceListReqMsg.encode, NowSurfaceListReqMsg.new_with_surfaces, vec8Encode, hle,
      SurfaceMessageType.encodeBytes, SurfaceMessageType.toCode, encU8]
  · intro hgt
    have hn : ¬ l.length ≤ 255 := by omega
    simp [NowSurfaceListReqMsg.encode, NowSurfaceListReqMsg.new_with_surfaces, vec8Encode, hn]

set_option maxRecDepth 20000 in
theorem c6_vec8_count_fidelity_witness :
    (([] : List NowSurfaceDef).length ≤ 255 ∧
      NowSurfaceListReqMsg.encode (NowSurfaceListReqMsg.new_with_surfaces 0 0 0 []) =
        .ok ([0x01, 0x00] ++ encU16 0 ++ encU16 0 ++ encU16 0 ++
          (([] : List NowSurfaceDef).length ::
            (([] : List NowSurfaceDef).map NowSurfaceDef.encodeBytes).flatten))) ∧
    (255 < (List.replicate 256 (NowSurfaceDef.new 0 EdgeRect.default)).length ∧
      NowSurfaceListReqMsg.encode (NowSurfaceListReqMsg.new_with_surfaces 0 0 0
          (List.replicate 256 (NowSurfaceDef.new 0 EdgeRect.default))) =
        .error [⟨.Encoding "Vec8", none⟩]) :=
  ⟨⟨by decide, (c6_vec8_count_fidelity 0 0 0 []).1 (by decide)⟩,
   ⟨by simp, (c6_vec8_count_fidelity 0 0 0 _).2 (by simp)⟩⟩

/-- C7 counterexample: on the buffer `[0x00]` (a byte that does not
validate as a subtype) the cursor after the failed decode stands one
byte past its original position — it is not restored. -/
theorem c7_cursor_not_restored_on_invalid :
    (NowSurfaceMsg.decodeFrom ⟨[0x00], 0⟩).2 = (⟨[0x00], 1⟩ : Cursor) ∧
    (NowSurfaceMsg.decodeFrom ⟨[0x00], 0⟩).2 ≠ (⟨[0x00], 0⟩ : Cursor) := by
  decide

/-- C7 (amended): the discriminant lookahead is non-destructive only
when the byte validates as a known subtype: the cursor is then restored
to its position before the byte and the dispatched variant decoder runs
from that original position, re-reading the discriminant itself; when
the byte does not validate, decoding fails with the byte consumed (the
cursor one past its original position). -/
theorem c7_lookahead_restores_on_valid (c : Cursor) (b : Nat)
    (hb : c.data.get? c.pos = some b) :
    (∀ t, SurfaceMessageType.fromCode b = some t →
      NowSurfaceMsg.decodeFrom c =
        resChainDesc (variantDecode t ⟨c.data, c.pos⟩) (.Decoding "NowSurfaceMsg")
          (decodeDesc t)) ∧
    (SurfaceMessageType.fromCode b = none →
      (NowSurfaceMsg.decodeFrom c).1 =
        .error [⟨.Decoding "NowSurfaceMsg", some "invalid subtype"⟩] ∧
      (NowSurfaceMsg.decodeFrom c).2 = ⟨c.data, c.pos + 1⟩) := by
  constructor
  · intro t ht
    exact decodeFrom_dispatch c b t hb ht
  · intro hf
    rw [decodeFrom_invalid c b hb hf]
    exact ⟨rfl, rfl⟩

theorem c7_lookahead_restores_on_valid_witness :
    (Cursor.mk [0x01] 0).data.get? (Cursor.mk [0x01] 0).pos = some 0x01 ∧
    SurfaceMessageType.fromCode 0x01 = some SurfaceMessageType.ListReq ∧
    NowSurfaceMsg.decodeFrom ⟨[0x01], 0⟩ =
      resChainDesc (variantDecode SurfaceMessageType.ListReq ⟨[0x01], 0⟩)
        (.Decoding "NowSurfaceMsg") (decodeDesc SurfaceMessageType.ListReq) :=
  ⟨by decide, by decide,
   (c7_lookahead_restores_on_valid ⟨[0x01], 0⟩ 0x01 (by decide)).1
     SurfaceMessageType.ListReq (by decide)⟩

/-- C8: whenever a variant-level decode or encode fails inside the
envelope, the error handed to the caller is the inner variant error with
one extra layer pushed on top, carrying the envelope's entity name
`NowSurfaceMsg` and the human description naming the failing variant —
the inner chain is preserved, not replaced. -/
theorem c8_error_context_chaining :
    (∀ (c : Cursor) (t : SurfaceMessageType) (e : ProtoError) (c2 : Cursor),
      c.data.get? c.pos = some t.toCode →
      variantDecode t c = (.error e, c2) →
      NowSurfaceMsg.decodeFrom c =
        (.error (⟨.Decoding "NowSurfaceMsg", some (decodeDesc t)⟩ :: e), c2)) ∧
    (∀ (m : NowSurfaceMsg) (e : ProtoError),
      variantEncodeE m = .error e →
      NowSurfaceMsg.encode m =
        .error (⟨.Encoding "NowSurfaceMsg", some (encodeDesc m)⟩ :: e)) := by
  constructor
  · intro c t e c2 hb hf
    rw [decodeFrom_dispatch c t.toCode t hb (fromCode_toCode t), hf]
    rfl
  · intro m e hf
    cases m <;>
      (simp only [variantEncodeE] at hf
       simp [NowSurfaceMsg.encode, encodeDesc, hf, chainE, orDescE])

set_option maxRecDepth 20000 in
theorem c8_error_context_chaining_witness :
    ((Cursor.mk [0x01] 0).data.get? (Cursor.mk [0x01] 0).pos =
        some (SurfaceMessageType.toCode SurfaceMessageType.ListReq) ∧
      variantDecode SurfaceMessageType.ListReq ⟨[0x01], 0⟩ =
        (.error [⟨.Decoding "io", none⟩], ⟨[0x01], 1⟩) ∧
      NowSurfaceMsg.decodeFrom ⟨[0x01], 0⟩ =
        (.error (⟨.Decoding "NowSurfaceMsg", some (decodeDesc SurfaceMessageType.ListReq)⟩ ::
          [⟨.Decoding "io", none⟩]), ⟨[0x01], 1⟩)) ∧
    (variantEncodeE (.MapReq (NowSurfaceMapReqMsg.new_with_mappings 0 0 0
        (List.replicate 256 (NowSurfaceMap.new 0 0 EdgeRect.default)))) =
        .error [⟨.Encoding "Vec8", none⟩] ∧
      NowSurfaceMsg.encode (.MapReq (NowSurfaceMapReqMsg.new_with_mappings 0 0 0
          (List.replicate 256 (NowSurfaceMap.new 0 0 EdgeRect.default)))) =
        .error (⟨.Encoding "NowSurfaceMsg", some (encodeDesc (.MapReq
          (NowSurfaceMapReqMsg.new_with_mappings 0 0 0
            (List.replicate 256 (NowSurfaceMap.new 0 0 EdgeRect.default)))))⟩ ::
          [⟨.Encoding "Vec8", none⟩])) :=
  ⟨⟨by decide, by decide,
    c8_error_context_chaining.1 ⟨[0x01], 0⟩ SurfaceMessageType.ListReq
      [⟨.Decoding "io", none⟩] ⟨[0x01], 1⟩ (by decide) (by decide)⟩,
   ⟨by decide,
    c8_error_context_chaining.2 _ [⟨.Encoding "Vec8", none⟩] (by decide)⟩⟩

/-- C9: a `NowSurfaceDef` built with `new` carries flags equal to
exactly `SELECTED | PRIMARY` (raw value 0x0009, all other bits clear),
size 16, and orientation `Landscape`. -/
theorem c9_surface_def_new_defaults (surface_id : Nat) (rect : EdgeRect) :
    (NowSurfaceDef.new surface_id rect).flags.value =
      (SurfacePropertiesFlags.SELECTED ||| SurfacePropertiesFlags.PRIMARY) ∧
    (NowSurfaceDef.new surface_id rect).flags.value = 0x0009 ∧
    (NowSurfaceDef.new surface_id rect).size = 16 ∧
    (NowSurfaceDef.new surface_id rect).orientation = SurfaceOrientation.Landscape :=
  ⟨rfl, rfl, rfl, rfl⟩

/-- C10: a `NowSurfaceDef` encoding is always exactly 16 bytes
(`REQUIRED_SIZE`) and is determined by the `size`, `flags`,
`surface_id`, `orientation` and `rect` fields alone; a successful decode
consumes exactly 16 bytes and fills the ignored fields (`dpi_x`,
`dpi_y`, `pct_scale_x`, `pct_scale_y`, `native_rect`) with defaults
without reading any bytes for them. -/
theorem c10_surface_def_wire_fields (d d' : NowSurfaceDef) (c : Cursor) (v : NowSurfaceDef)
    (c' : Cursor) :
    (NowSurfaceDef.encodeBytes d).length = NowSurfaceDef.REQUIRED_SIZE ∧
    (d.size = d'.size → d.flags = d'.flags → d.surface_id = d'.surface_id →
      d.orientation = d'.orientation → d.rect = d'.rect →
      NowSurfaceDef.encodeBytes d = NowSurfaceDef.encodeBytes d') ∧
    (NowSurfaceDef.decodeFrom c = (.ok v, c') →
      c' = ⟨c.data, c.pos + 16⟩ ∧ v.dpi_x = 0 ∧ v.dpi_y = 0 ∧ v.pct_scale_x = 0 ∧
        v.pct_scale_y = 0 ∧ v.native_rect = EdgeRect.default) := by
  refine ⟨?_, ?_, fun h => nowSurfaceDef_decode_ok c v c' h⟩
  · simp [NowSurfaceDef.encodeBytes, NowSurfaceDef.REQUIRED_SIZE, encU16,
      SurfacePropertiesFlags.encodeBytes, SurfaceOrientation.encodeBytes, EdgeRect.encodeBytes]
  · intro h1 h2 h3 h4 h5
    simp [NowSurfaceDef.encodeBytes, h1, h2, h3, h4, h5]

theorem c10_surface_def_wire_fields_witness :
    (NowSurfaceDef.encodeBytes (NowSurfaceDef.new 0 EdgeRect.default)).length =
      NowSurfaceDef.REQUIRED_SIZE ∧
    NowSurfaceDef.encodeBytes (NowSurfaceDef.new 0 EdgeRect.default) =
      NowSurfaceDef.encodeBytes (NowSurfaceDef.new 0 EdgeRect.default) ∧
    ((⟨List.replicate 16 0, 16⟩ : Cursor) =
        ⟨(Cursor.mk (List.replicate 16 0) 0).data, (Cursor.mk (List.replicate 16 0) 0).pos + 16⟩ ∧
      (0 : Nat) = 0 ∧ (0 : Nat) = 0 ∧ (0 : Nat) = 0 ∧ (0 : Nat) = 0 ∧
      (⟨0, 0, 0, 0⟩ : EdgeRect) = EdgeRect.default) := by
  have h := c10_surface_def_wire_fields (NowSurfaceDef.new 0 EdgeRect.default)
    (NowSurfaceDef.new 0 EdgeRect.default) ⟨List.replicate 16 0, 0⟩
    ⟨0, ⟨0⟩, 0, .Landscape, ⟨0, 0, 0, 0⟩, 0, 0, 0, 0, ⟨0, 0, 0, 0⟩⟩ ⟨List.replicate 16 0, 16⟩
  exact ⟨h.1, h.2.1 rfl rfl rfl rfl rfl, h.2.2 (by decide)⟩

end WaykSurface
